import Mathlib

/-!
Verification of the token-bucket rate limiter in
`src/native/src/utils/rate_limit.rs`.

Time is modelled in nanoseconds as `Nat` (Rust `Instant` is monotonic;
`Instant::duration_since` saturates at zero, matching truncated `Nat`
subtraction).  `u32` values are `Nat` with explicit `% 2^32` where the
source's release-mode wrapping arithmetic matters.  The source computes
`(elapsed.as_secs_f64() / interval.as_secs_f64()) as u32`; this is
modelled as exact integer division of nanosecond counts together with
the `f64`-cast edge cases: a positive value divided by `0.0` is `+inf`
and the saturating `as u32` cast yields `u32::MAX`, while `0.0 / 0.0`
is NaN and the cast yields `0`.
-/

namespace RateLimit

/-- Nanoseconds per second: `Duration::from_secs` scaling. -/
def nsPerSec : Nat := 1000000000

/-- Largest `u32` value, the saturation bound of the `as u32` cast. -/
def u32Max : Nat := 2 ^ 32 - 1

/-- `struct RateLimiter` from `rate_limit.rs`: per-key token-bucket state.
Durations and instants are nanosecond counts. -/
structure RateLimiter where
  last_request : Option Nat
  interval : Nat
  burst_capacity : Nat
  current_tokens : Nat
  last_refill : Nat
  deriving Repr, DecidableEq

/-- `RateLimiter::new_with_burst(interval_secs, burst_capacity)`, with the
creation instant (`Instant::now()`) passed explicitly. -/
def new_with_burst (interval_secs burst_capacity now : Nat) : RateLimiter :=
  { last_request := none
    interval := interval_secs * nsPerSec
    burst_capacity := burst_capacity
    current_tokens := burst_capacity
    last_refill := now }

/-- `RateLimiter::new(interval_secs)`: fixed burst of 5. -/
def new (interval_secs now : Nat) : RateLimiter :=
  { last_request := none
    interval := interval_secs * nsPerSec
    burst_capacity := 5
    current_tokens := 5
    last_refill := now }

/-- The refill count `(time_since_refill.as_secs_f64() / interval.as_secs_f64()) as u32`:
exact floor division of nanosecond counts, saturating at `u32::MAX`; when the
interval is zero the `f64` division gives `+inf` (cast saturates to `u32::MAX`)
for a positive numerator and NaN (cast yields `0`) for a zero numerator. -/
def tokensToAdd (elapsed interval : Nat) : Nat :=
  if interval = 0 then
    if elapsed = 0 then 0 else u32Max
  else
    min (elapsed / interval) u32Max

/-- `RateLimiter::check`, with `now` (`Instant::now()`) passed explicitly.
The addition `current_tokens + tokens_to_add` is `u32` arithmetic, which
wraps modulo `2^32` in release builds (overflow checks off); the wrap is
modelled with an explicit `% 2 ^ 32`.  Returns the admission decision and
the updated bucket. -/
def check (b : RateLimiter) (now : Nat) : Bool × RateLimiter :=
  let time_since_refill := now - b.last_refill
  let tokens_to_add := tokensToAdd time_since_refill b.interval
  let b1 :=
    if tokens_to_add > 0 then
      { b with
          current_tokens := min ((b.current_tokens + tokens_to_add) % 2 ^ 32) b.burst_capacity
          last_refill := now }
    else b
  if b1.current_tokens > 0 then
    (true, { b1 with current_tokens := b1.current_tokens - 1, last_request := some now })
  else
    (false, b1)

/-- `RateLimiter::is_expired(max_idle_duration)`, with `now` passed
explicitly: true iff `last_request` is present and its distance to `now`
exceeds `max_idle_duration`. -/
def is_expired (b : RateLimiter) (now max_idle_duration : Nat) : Bool :=
  match b.last_request with
  | some last_time => decide (max_idle_duration < now - last_time)
  | none => false

/-- Results of `n` consecutive `check` calls at the same instant sequence,
all at time `now`, threading the bucket state. -/
def runChecks (b : RateLimiter) (now : Nat) : Nat → List Bool × RateLimiter
  | 0 => ([], b)
  | n + 1 =>
      let r := check b now
      let rest := runChecks r.2 now n
      (r.1 :: rest.1, rest.2)

/-- `CLEANUP_INTERVAL`: five minutes, in nanoseconds. -/
def CLEANUP_INTERVAL : Nat := 300 * nsPerSec

/-- `MAX_IDLE_DURATION`: one hour, in nanoseconds. -/
def MAX_IDLE_DURATION : Nat := 3600 * nsPerSec

/-- The process-wide limiter state: the `RATE_LIMITERS` map (modelled as a
partial function from key to bucket, matching `HashMap` lookup) together
with the `LAST_CLEANUP` timestamp. -/
structure Registry where
  buckets : String → Option RateLimiter
  last_cleanup : Nat

/-- `cleanup_expired_limiters()`, with `now` passed explicitly: skip when
less than `CLEANUP_INTERVAL` has elapsed since `last_cleanup`; otherwise
retain exactly the non-expired buckets and advance `last_cleanup` to `now`. -/
def cleanup_expired_limiters (s : Registry) (now : Nat) : Registry :=
  if now - s.last_cleanup < CLEANUP_INTERVAL then s
  else
    { buckets := fun k =>
        match s.buckets k with
        | some limiter => if is_expired limiter now MAX_IDLE_DURATION then none else some limiter
        | none => none
      last_cleanup := now }

/-- `check_rate_limit(key, interval_secs, burst_capacity)`, with `now`
passed explicitly (the source samples `Instant::now()` within the call):
run the periodic cleanup, look up or lazily insert the bucket
(`entry(key).or_insert_with(new_with_burst ...)`), apply `check`, and
return the admission decision with the updated registry. -/
def check_rate_limit (s : Registry) (key : String) (interval_secs burst_capacity now : Nat) :
    Bool × Registry :=
  let s1 := cleanup_expired_limiters s now
  let limiter :=
    match s1.buckets key with
    | some b => b
    | none => new_with_burst interval_secs burst_capacity now
  let r := check limiter now
  (r.1, { s1 with buckets := fun k => if k = key then some r.2 else s1.buckets k })

/-- `reset_rate_limit(key)`: remove the key's bucket if present and report
whether a removal occurred; `LAST_CLEANUP` is untouched. -/
def reset_rate_limit (s : Registry) (key : String) : Bool × Registry :=
  ((s.buckets key).isSome,
   { s with buckets := fun k => if k = key then none else s.buckets k })

/-- `get_rate_limit_stats()`: purely observational, leaves the registry
unchanged (it only reads the map's size). -/
def get_rate_limit_stats (s : Registry) : Registry := s

theorem tokensToAdd_zero_elapsed (interval : Nat) : tokensToAdd 0 interval = 0 := by
  unfold tokensToAdd
  rcases Nat.eq_zero_or_pos interval with h | h
  · simp [h]
  · rw [if_neg (Nat.pos_iff_ne_zero.mp h)]
    simp [Nat.zero_div]

theorem check_at_refill_instant (b : RateLimiter) :
    check b b.last_refill =
      (if b.current_tokens > 0 then
        (true, { b with current_tokens := b.current_tokens - 1,
                        last_request := some b.last_refill })
      else (false, b)) := by
  unfold check
  simp [tokensToAdd_zero_elapsed]

/-- After `n ≤ tokens` same-instant checks, all admitted and `tokens - n` remain;
the refill baseline and parameters are untouched. -/
theorem runChecks_same_instant (n : Nat) :
    ∀ b : RateLimiter, n ≤ b.current_tokens →
      (runChecks b b.last_refill n).1 = List.replicate n true ∧
      (runChecks b b.last_refill n).2 =
        { b with current_tokens := b.current_tokens - n,
                 last_request := if n = 0 then b.last_request else some b.last_refill } := by
  induction n with
  | zero =>
      intro b _
      constructor
      · rfl
      · simp [runChecks]
  | succ m ih =>
      intro b hn
      have htok : b.current_tokens > 0 := Nat.lt_of_lt_of_le (Nat.succ_pos m) hn
      have hstep : check b b.last_refill =
          (true, { b with current_tokens := b.current_tokens - 1,
                          last_request := some b.last_refill }) := by
        rw [check_at_refill_instant b, if_pos htok]
      have hle : m ≤ b.current_tokens - 1 := Nat.le_sub_one_of_lt hn
      have ihb := ih { b with current_tokens := b.current_tokens - 1,
                              last_request := some b.last_refill } hle
      constructor
      · show (runChecks b b.last_refill (m + 1)).1 = List.replicate (m + 1) true
        unfold runChecks
        rw [hstep]
        simp only [List.replicate_succ]
        exact congrArg (List.cons true) ihb.1
      · show (runChecks b b.last_refill (m + 1)).2 = _
        unfold runChecks
        rw [hstep]
        rw [ihb.2]
        simp [Nat.sub_sub, Nat.add_comm]

theorem runChecks_zero (b : RateLimiter) (now : Nat) : runChecks b now 0 = ([], b) := rfl

theorem runChecks_succ (b : RateLimiter) (now n : Nat) :
    runChecks b now (n + 1) =
      ((check b now).1 :: (runChecks (check b now).2 now n).1,
       (runChecks (check b now).2 now n).2) := rfl

/-- `runChecks` splits: the first `m` calls, then `n` more on the state
they leave behind. -/
theorem runChecks_add (now m : Nat) :
    ∀ (b : RateLimiter) (n : Nat),
      (runChecks b now (m + n)).1 =
        (runChecks b now m).1 ++ (runChecks (runChecks b now m).2 now n).1 ∧
      (runChecks b now (m + n)).2 = (runChecks (runChecks b now m).2 now n).2 := by
  induction m with
  | zero =>
      intro b n
      constructor <;> simp [runChecks_zero]
  | succ k ih =>
      intro b n
      have hsum : k + 1 + n = (k + n) + 1 := by omega
      rw [hsum]
      have ihb := ih (check b now).2 n
      rw [runChecks_succ, runChecks_succ]
      constructor
      · simp only [ihb.1, List.cons_append]
      · exact ihb.2

theorem check_interval_eq (b : RateLimiter) (now : Nat) :
    (check b now).2.interval = b.interval := by
  unfold check
  dsimp only
  split <;> split <;> rfl

theorem check_capacity_eq (b : RateLimiter) (now : Nat) :
    (check b now).2.burst_capacity = b.burst_capacity := by
  unfold check
  dsimp only
  split <;> split <;> rfl

theorem check_tokens_le (b : RateLimiter) (now : Nat)
    (h : b.current_tokens ≤ b.burst_capacity) :
    (check b now).2.current_tokens ≤ b.burst_capacity := by
  unfold check
  dsimp only
  split
  · split
    · exact le_trans (Nat.sub_le _ _) (min_le_right _ _)
    · exact min_le_right _ _
  · split
    · exact le_trans (Nat.sub_le _ _) h
    · exact h

/-- C1: For every key with burst capacity `C > 0` and no time elapsed
between calls (so no tokens accrue), the first `C` consecutive `check`
calls for that key return admitted and the `(C+1)`-th returns denied. -/
theorem c1_admission_bound (C interval_secs t : Nat) (_hC : 0 < C) :
    (runChecks (new_with_burst interval_secs C t) t (C + 1)).1 =
      List.replicate C true ++ [false] := by
  set f := new_with_burst interval_secs C t with hf
  have hrefill : f.last_refill = t := rfl
  have htok : f.current_tokens = C := rfl
  have hfirst := runChecks_same_instant C f (le_of_eq htok)
  rw [hrefill] at hfirst
  have hsplit := runChecks_add t C f 1
  rw [hsplit.1, hfirst.1]
  have hzero : (runChecks f t C).2.current_tokens = 0 := by
    rw [hfirst.2]
    simp [htok]
  have hrefill2 : (runChecks f t C).2.last_refill = t := by
    rw [hfirst.2]
  have hc : check (runChecks f t C).2 t = (false, (runChecks f t C).2) := by
    have := check_at_refill_instant (runChecks f t C).2
    rw [hrefill2] at this
    rw [this, if_neg]
    simp [hzero]
  have hlast : (runChecks (runChecks f t C).2 t 1).1 = [false] := by
    rw [runChecks_succ, hc, runChecks_zero]
  rw [hlast]

/-- C1 witness: capacity 3, interval 1 s, all four calls at instant 0. -/
theorem c1_admission_bound_witness :
    (runChecks (new_with_burst 1 3 0) 0 4).1 = List.replicate 3 true ++ [false] :=
  c1_admission_bound 3 1 0 (by decide)

/-- C2: For every bucket and every sequence of `check` calls with any
elapsed times, `0 ≤ tokens ≤ capacity` holds after bucket creation and is
preserved by every `check`, regardless of idle time (tokens are naturals,
so the lower bound is inherent; the upper bound is stated). -/
theorem c2_tokens_never_exceed_capacity (interval_secs cap t : Nat)
    (b : RateLimiter) (now : Nat) (hinv : b.current_tokens ≤ b.burst_capacity) :
    (new_with_burst interval_secs cap t).current_tokens =
        (new_with_burst interval_secs cap t).burst_capacity ∧
    (check b now).2.current_tokens ≤ (check b now).2.burst_capacity := by
  refine ⟨rfl, ?_⟩
  rw [check_capacity_eq]
  exact check_tokens_le b now hinv

/-- C2 witness: a bucket holding 2 of 5 tokens checked after 7 s. -/
theorem c2_tokens_never_exceed_capacity_witness :
    (⟨some 0, nsPerSec, 5, 2, 0⟩ : RateLimiter).current_tokens ≤ 5 ∧
    (check ⟨some 0, nsPerSec, 5, 2, 0⟩ (7 * nsPerSec)).2.current_tokens ≤
      (check ⟨some 0, nsPerSec, 5, 2, 0⟩ (7 * nsPerSec)).2.burst_capacity :=
  ⟨by decide,
   (c2_tokens_never_exceed_capacity 1 5 0 ⟨some 0, nsPerSec, 5, 2, 0⟩ (7 * nsPerSec)
      (by decide)).2⟩

/-- C8: `is_expired(now, max_idle_duration)` is true iff `last_request`
is present and `now − last_request > max_idle_duration`; in particular a
bucket that has never admitted a request is never considered expired. -/
theorem c8_is_expired_iff (b : RateLimiter) (now max_idle_duration : Nat) :
    ((is_expired b now max_idle_duration) = true ↔
      ∃ t, b.last_request = some t ∧ max_idle_duration < now - t) ∧
    (b.last_request = none → (is_expired b now max_idle_duration) = false) := by
  unfold is_expired
  cases h : b.last_request with
  | none => simp
  | some t => simp [h]

/-- C8 witness: a bucket with no admitted request is not expired even at a
huge `now`, by the second conjunct of the theorem. -/
theorem c8_is_expired_iff_witness :
    (is_expired ⟨none, nsPerSec, 5, 5, 0⟩
      (10000000 * nsPerSec) MAX_IDLE_DURATION) = false :=
  (c8_is_expired_iff ⟨none, nsPerSec, 5, 5, 0⟩ (10000000 * nsPerSec) MAX_IDLE_DURATION).2 rfl

/-- C10: `reset(k)` removes at most the entry for `k`: the bucket of
every other key is unchanged, `last_cleanup` is unchanged, the entry for
`k` is gone, and the return value is true exactly when `k` was present. -/
theorem c10_reset_frame (s : Registry) (key : String) :
    (reset_rate_limit s key).2.buckets key = none ∧
    (∀ k, k ≠ key → (reset_rate_limit s key).2.buckets k = s.buckets k) ∧
    (reset_rate_limit s key).2.last_cleanup = s.last_cleanup ∧
    ((reset_rate_limit s key).1 = true ↔ (s.buckets key).isSome = true) := by
  unfold reset_rate_limit
  refine ⟨by simp, fun k hk => by simp [hk], rfl, by simp⟩

/-- C10 witness: resetting "a" in a two-key registry leaves "b" intact. -/
theorem c10_reset_frame_witness :
    (reset_rate_limit
        ⟨fun k => if k = "a" then some ⟨none, nsPerSec, 3, 3, 0⟩
                  else if k = "b" then some ⟨some 5, nsPerSec, 4, 1, 5⟩ else none, 17⟩
        "a").2.buckets "b" = some ⟨some 5, nsPerSec, 4, 1, 5⟩ :=
  ((c10_reset_frame
      ⟨fun k => if k = "a" then some ⟨none, nsPerSec, 3, 3, 0⟩
                else if k = "b" then some ⟨some 5, nsPerSec, 4, 1, 5⟩ else none, 17⟩
      "a").2.1 "b" (by decide)).trans (by decide)

/-- C4: For every key already present in the registry and not evicted by
the sweep this call triggers (an expired bucket under a throttled sweep
survives and is covered too), a `check` call with any interval/capacity
arguments leaves the existing bucket's `refill_interval` and `capacity`
unchanged: first-writer-wins, until the key is evicted or reset. -/
theorem c4_first_writer_wins (s : Registry) (key : String)
    (interval_secs burst_capacity now : Nat) (b : RateLimiter)
    (hb : s.buckets key = some b)
    (hkept : (cleanup_expired_limiters s now).buckets key ≠ none) :
    ∃ b', (check_rate_limit s key interval_secs burst_capacity now).2.buckets key = some b' ∧
      b'.interval = b.interval ∧ b'.burst_capacity = b.burst_capacity := by
  have h1 : (cleanup_expired_limiters s now).buckets key = some b := by
    unfold cleanup_expired_limiters at hkept ⊢
    by_cases hthr : now - s.last_cleanup < CLEANUP_INTERVAL
    · rw [if_pos hthr]
      exact hb
    · rw [if_neg hthr] at hkept ⊢
      dsimp only at hkept ⊢
      rw [hb] at hkept ⊢
      dsimp only at hkept ⊢
      by_cases he : is_expired b now MAX_IDLE_DURATION = true
      · rw [if_pos he] at hkept
        exact absurd rfl hkept
      · rw [if_neg he]
  refine ⟨(check b now).2, ?_, check_interval_eq b now, check_capacity_eq b now⟩
  unfold check_rate_limit
  dsimp only
  rw [h1]
  simp

/-- C4 witness: key created with 10 s / capacity 3, last admitted at time
0, re-checked with 1 s / capacity 100 at 7200 s while the sweep is
throttled (`last_cleanup` 7000 s): the bucket is expired yet survives,
and the stored parameters stay 10 s / 3. -/
theorem c4_first_writer_wins_witness :
    ∃ b', (check_rate_limit
        ⟨fun k => if k = "k" then some ⟨some 0, 10 * nsPerSec, 3, 3, 0⟩ else none,
          7000 * nsPerSec⟩
        "k" 1 100 (7200 * nsPerSec)).2.buckets "k" = some b' ∧
      b'.interval = 10 * nsPerSec ∧ b'.burst_capacity = 3 :=
  c4_first_writer_wins
    ⟨fun k => if k = "k" then some ⟨some 0, 10 * nsPerSec, 3, 3, 0⟩ else none,
      7000 * nsPerSec⟩
    "k" 1 100 (7200 * nsPerSec) ⟨some 0, 10 * nsPerSec, 3, 3, 0⟩ (by decide) (by decide)

theorem cleanup_buckets_none (s : Registry) (now : Nat) (k : String)
    (h : s.buckets k = none) : (cleanup_expired_limiters s now).buckets k = none := by
  unfold cleanup_expired_limiters
  split
  · exact h
  · show (match s.buckets k with
          | some limiter =>
              if is_expired limiter now MAX_IDLE_DURATION then none else some limiter
          | none => none) = none
    rw [h]

/-- C5: (amended: needs `burst_capacity > 0`) `reset(k)` followed
immediately by `check(k, interval, capacity)` with a positive capacity
returns admitted, independent of prior state: the check runs against a
freshly created bucket holding a full burst. -/
theorem c5_reset_then_check_admits (s : Registry) (key : String)
    (interval_secs burst_capacity now : Nat) (hc : 0 < burst_capacity) :
    (check_rate_limit (reset_rate_limit s key).2 key interval_secs burst_capacity now).1 =
      true := by
  have h0 : (reset_rate_limit s key).2.buckets key = none := by
    unfold reset_rate_limit
    simp
  have h1 : (cleanup_expired_limiters (reset_rate_limit s key).2 now).buckets key = none :=
    cleanup_buckets_none _ now key h0
  unfold check_rate_limit
  dsimp only
  rw [h1]
  have hstep := check_at_refill_instant (new_with_burst interval_secs burst_capacity now)
  rw [show (new_with_burst interval_secs burst_capacity now).last_refill = now from rfl] at hstep
  rw [hstep,
    if_pos (show (new_with_burst interval_secs burst_capacity now).current_tokens > 0 from hc)]

/-- C5 counterexample: with capacity 0 the freshly created bucket holds no
tokens, so the check immediately after a reset is denied — the claim as
stated (for every capacity) fails. -/
theorem c5_zero_capacity_denied :
    (check_rate_limit
        (reset_rate_limit
          ⟨fun k => if k = "k" then some ⟨some 0, nsPerSec, 5, 5, 0⟩ else none, 0⟩ "k").2
        "k" 1 0 0).1 = false := by decide

/-- C5 witness: a key with an exhausted bucket is reset and re-checked
with capacity 5 at a later instant — admitted. -/
theorem c5_reset_then_check_admits_witness :
    (check_rate_limit
        (reset_rate_limit
          ⟨fun k => if k = "k" then some ⟨some 0, 10 * nsPerSec, 5, 0, 0⟩ else none, 0⟩ "k").2
        "k" 10 5 123).1 = true :=
  c5_reset_then_check_admits
    ⟨fun k => if k = "k" then some ⟨some 0, 10 * nsPerSec, 5, 0, 0⟩ else none, 0⟩
    "k" 10 5 123 (by decide)

/-- C3: With a zero interval the code does not special-case the refill:
`0.0 / 0.0` is NaN and casts to `0`, so a second check at the same instant
finds an exhausted bucket, accrues nothing, and is denied — contradicting
the required "never rate limited" behaviour for nonzero capacity.  This
theorem evaluates the code at the failing input: key `"k"`, interval `0`,
capacity `1`, two `check` calls at the same instant — the first admits,
the second is denied. -/
theorem c3_zero_interval_denied :
    (check_rate_limit ⟨fun _ => none, 0⟩ "k" 0 1 0).1 = true ∧
    (check_rate_limit (check_rate_limit ⟨fun _ => none, 0⟩ "k" 0 1 0).2 "k" 0 1 0).1 =
      false := by decide

theorem check_last_refill_of_refill (b : RateLimiter) (now : Nat)
    (h : 0 < tokensToAdd (now - b.last_refill) b.interval) :
    (check b now).2.last_refill = now := by
  unfold check
  dsimp only
  rw [if_pos h]
  split <;> rfl

/-- C9 (amended): Whenever a `check` call computes `tokens_to_add > 0`
it sets `last_refill` to `now` (not `last_refill + tokens_to_add *
interval`), so the fractional progress toward the next token is discarded
at that refill event: a further check less than one interval after the
refill accrues zero tokens.  (When a check accrues no tokens,
`last_refill` is *not* advanced, so progress toward the next token is
retained across such checks.) -/
theorem c9_refill_resets_baseline (b : RateLimiter) (now e : Nat)
    (hadd : 0 < tokensToAdd (now - b.last_refill) b.interval)
    (hi : 0 < b.interval) (he : e < b.interval) :
    (check b now).2.last_refill = now ∧
    tokensToAdd (now + e - (check b now).2.last_refill) (check b now).2.interval = 0 := by
  have hlr := check_last_refill_of_refill b now hadd
  refine ⟨hlr, ?_⟩
  rw [hlr, check_interval_eq]
  rw [show now + e - now = e by omega]
  unfold tokensToAdd
  rw [if_neg (Nat.pos_iff_ne_zero.mp hi)]
  rw [Nat.div_eq_of_lt he]
  simp

/-- C9 counterexample to the claim's consequence: bucket with interval
2 s, no tokens, `last_refill = 0`.  Checks at 1 s and 2 s are spaced
`e1 = e2 = 1 s < interval` with `e1 + e2 ≥ interval`; the first check is
not a refill event so `last_refill` stays 0, and the second check accrues
one token (and is admitted) — not zero as the claim states. -/
theorem c9_fraction_accrues_across_checks :
    nsPerSec < 2 * nsPerSec ∧
    2 * nsPerSec ≤ nsPerSec + nsPerSec ∧
    (check (⟨some 0, 2 * nsPerSec, 1, 0, 0⟩ : RateLimiter) nsPerSec).1 = false ∧
    tokensToAdd
        (2 * nsPerSec -
          (check (⟨some 0, 2 * nsPerSec, 1, 0, 0⟩ : RateLimiter) nsPerSec).2.last_refill)
        (check (⟨some 0, 2 * nsPerSec, 1, 0, 0⟩ : RateLimiter) nsPerSec).2.interval = 1 ∧
    (check (check (⟨some 0, 2 * nsPerSec, 1, 0, 0⟩ : RateLimiter) nsPerSec).2
      (2 * nsPerSec)).1 = true := by decide

/-- C9 witness: a refill event at 2 s (one token accrued) resets the
baseline, and a check 1 s later (less than the 2 s interval) accrues
nothing. -/
theorem c9_refill_resets_baseline_witness :
    (check (⟨some 0, 2 * nsPerSec, 5, 1, 0⟩ : RateLimiter) (2 * nsPerSec)).2.last_refill =
        2 * nsPerSec ∧
    tokensToAdd
        (2 * nsPerSec + nsPerSec -
          (check (⟨some 0, 2 * nsPerSec, 5, 1, 0⟩ : RateLimiter) (2 * nsPerSec)).2.last_refill)
        (check (⟨some 0, 2 * nsPerSec, 5, 1, 0⟩ : RateLimiter) (2 * nsPerSec)).2.interval =
      0 :=
  c9_refill_resets_baseline ⟨some 0, 2 * nsPerSec, 5, 1, 0⟩ (2 * nsPerSec) nsPerSec
    (by decide) (by decide) (by decide)

/-- C7: The sweep triggered by every `check` call: if less than
`CLEANUP_INTERVAL` has elapsed since `last_cleanup` the sweep is skipped
and the registry is untouched; otherwise exactly the expired entries are
removed, all others are unchanged, and `last_cleanup` advances to `now`.
The final conjunct records that `check_rate_limit` publishes precisely the
sweep's `last_cleanup`. -/
theorem c7_sweep_semantics (s : Registry) (now : Nat) :
    (now - s.last_cleanup < CLEANUP_INTERVAL → cleanup_expired_limiters s now = s) ∧
    (CLEANUP_INTERVAL ≤ now - s.last_cleanup →
      (∀ k, (cleanup_expired_limiters s now).buckets k =
        match s.buckets k with
        | some limiter =>
            if is_expired limiter now MAX_IDLE_DURATION then none else some limiter
        | none => none) ∧
      (cleanup_expired_limiters s now).last_cleanup = now) ∧
    (∀ key interval_secs burst_capacity,
      (check_rate_limit s key interval_secs burst_capacity now).2.last_cleanup =
        (cleanup_expired_limiters s now).last_cleanup) := by
  refine ⟨?_, ?_, fun key interval_secs burst_capacity => rfl⟩
  · intro h
    unfold cleanup_expired_limiters
    rw [if_pos h]
  · intro h
    unfold cleanup_expired_limiters
    rw [if_neg (not_lt.mpr h)]
    exact ⟨fun k => rfl, rfl⟩

/-- C7 witness: at `now = 0` (nothing elapsed) the sweep leaves the empty
registry untouched; at `now = CLEANUP_INTERVAL` the sweep runs and
advances `last_cleanup`. -/
theorem c7_sweep_semantics_witness :
    cleanup_expired_limiters ⟨fun _ => none, 0⟩ 0 = ⟨fun _ => none, 0⟩ ∧
    (cleanup_expired_limiters ⟨fun _ => none, 0⟩ CLEANUP_INTERVAL).last_cleanup =
      CLEANUP_INTERVAL :=
  ⟨(c7_sweep_semantics ⟨fun _ => none, 0⟩ 0).1 (by decide),
   ((c7_sweep_semantics ⟨fun _ => none, 0⟩ CLEANUP_INTERVAL).2.1 (by decide)).2⟩

/-- C6 (amended): Keys are only evicted when the sweep actually runs:
immediately after a sweep at time `now`, every surviving bucket either has
never admitted a request (`last_request` absent — such buckets are never
evicted, however old) or was last admitted within `max_idle_duration` of
`now`.  Between sweeps, or while the sweep is throttled by
`cleanup_interval`, a live key's idle time may exceed
`max_idle_duration`. -/
theorem c6_survivor_not_expired (s : Registry) (now : Nat) (k : String) (b : RateLimiter)
    (hrun : CLEANUP_INTERVAL ≤ now - s.last_cleanup)
    (hk : (cleanup_expired_limiters s now).buckets k = some b) :
    b.last_request = none ∨
    ∃ t, b.last_request = some t ∧ now - t ≤ MAX_IDLE_DURATION := by
  unfold cleanup_expired_limiters at hk
  rw [if_neg (not_lt.mpr hrun)] at hk
  dsimp only at hk
  cases hsk : s.buckets k with
  | none => rw [hsk] at hk; cases hk
  | some l =>
      rw [hsk] at hk
      dsimp only at hk
      by_cases he : is_expired l now MAX_IDLE_DURATION = true
      · rw [if_pos he] at hk
        cases hk
      · rw [if_neg he] at hk
        have hlb : l = b := by injection hk
        rw [← hlb]
        cases hlast : l.last_request with
        | none => exact Or.inl rfl
        | some t =>
            right
            refine ⟨t, rfl, ?_⟩
            have he' : is_expired l now MAX_IDLE_DURATION = false :=
              Bool.eq_false_iff.mpr he
            unfold is_expired at he'
            rw [hlast] at he'
            simp only [decide_eq_false_iff_not] at he'
            exact Nat.le_of_not_lt he'

/-- C6 counterexample to the claim as stated: key `"k"` is checked (and
denied, capacity 0) once at time 0, so its bucket never records an
admitted request; a sweep runs at 7200 s (triggered by a check of another
key) yet retains `"k"`, although 7200 s − 0 s exceeds the one-hour
`MAX_IDLE_DURATION` — a live key whose idle time exceeds the bound. -/
theorem c6_idle_key_survives :
    (check_rate_limit (check_rate_limit ⟨fun _ => none, 0⟩ "k" 1 0 0).2 "j" 1 5
        (7200 * nsPerSec)).2.buckets "k" = some ⟨none, nsPerSec, 0, 0, 0⟩ ∧
    MAX_IDLE_DURATION < 7200 * nsPerSec - 0 := by decide

/-- C6 witness: a bucket last admitted at time 0 survives a sweep at
400 s, and indeed 400 s − 0 is within the idle bound. -/
theorem c6_survivor_not_expired_witness :
    (⟨some 0, nsPerSec, 5, 4, 0⟩ : RateLimiter).last_request = none ∨
    ∃ t, (⟨some 0, nsPerSec, 5, 4, 0⟩ : RateLimiter).last_request = some t ∧
      400 * nsPerSec - t ≤ MAX_IDLE_DURATION :=
  c6_survivor_not_expired
    ⟨fun k => if k = "k" then some ⟨some 0, nsPerSec, 5, 4, 0⟩ else none, 0⟩
    (400 * nsPerSec) "k" ⟨some 0, nsPerSec, 5, 4, 0⟩ (by decide) (by decide)

end RateLimit
